import Mathlib

/-!
Verification of the AutoSpareFinder authentication & session security engine.

The repository contains two near-duplicate implementations of the engine:
`BACKEND_AUTH_SECURITY.py` at the repository root (namespace `Root` below)
and `backend/BACKEND_AUTH_SECURITY.py` (namespace `Backend` below).  Each
Python function is embedded as a pure Lean function over explicit database
states (lists of rows mirroring the SQLAlchemy models); wall-clock time
(`datetime.utcnow()`) is passed explicitly as a natural number of seconds,
and random draws (`secrets.token_hex`, `secrets.token_urlsafe`, generated
uuids and 2FA codes) are passed explicitly as arguments.
-/

namespace AutoSpare

/-- Model of FastAPI's `HTTPException`: status code, detail message and
optional extra headers. -/
structure HTTPError where
  status : Nat
  detail : String
  headers : List (String × String)
deriving DecidableEq, Repr

/-- Timestamps are seconds (the code uses `datetime.utcnow()` plus
`timedelta`s; all the relevant arithmetic is in whole seconds). -/
abbrev Time := Nat

/-- The `type` claim of a JWT (`"access"` or `"refresh"`). -/
inductive TokType where
  | access
  | refresh
deriving DecidableEq, Repr

/-- A JWT as its decoded payload.  Both implementations sign tokens with a
server-side secret; every token representable here is one the server
minted, so signature validity is implicit and `decode` only has to check
expiry and the `type` claim.  `meta` carries the per-implementation extra
claim: the device fingerprint for the root implementation, the random
session id for the backend implementation. -/
structure Token where
  user_id : Nat
  meta : String
  typ : TokType
  iat : Time
  exp : Time
deriving DecidableEq, Repr

/-- `two_factor_codes` table (same columns in both model files). -/
structure TwoFactorCodeRow where
  id : Nat
  user_id : Nat
  code : String
  phone : String
  attempts : Nat
  expires_at : Time
  verified_at : Option Time
  created_at : Time
deriving DecidableEq, Repr

/-- Committing a mutation of one fetched ORM row back to the table. -/
def updateTfa (codes : List TwoFactorCodeRow) (r : TwoFactorCodeRow) :
    List TwoFactorCodeRow :=
  codes.map fun x => if x.id == r.id then r else x

/-- The lookup both `verify_2fa_code` implementations perform:
`select ... where user_id = uid and verified_at is null and expires_at >
utcnow() order by created_at desc limit 1`. -/
def latestActiveCode (codes : List TwoFactorCodeRow) (now : Time) (uid : Nat) :
    Option TwoFactorCodeRow :=
  (codes.filter fun r =>
      r.user_id == uid && r.verified_at.isNone && decide (now < r.expires_at)).foldl
    (fun acc r =>
      match acc with
      | none => some r
      | some b => if b.created_at < r.created_at then some r else some b)
    none

def TFA_MAX_ATTEMPTS : Nat := 3

def ACCESS_TOKEN_EXPIRE_MINUTES : Nat := 15

def REFRESH_TOKEN_EXPIRE_DAYS : Nat := 7

def DEVICE_TRUST_DAYS : Nat := 180

def MAX_LOGIN_ATTEMPTS : Nat := 5

def LOGIN_LOCKOUT_MINUTES : Nat := 15

def TFA_CODE_EXPIRY_MINUTES : Nat := 10

/-- bcrypt is an external primitive the core consumes, not implements
(`hash_password` / `pwd_context.hash`); it is modelled as an injective
tagging of the plaintext, which preserves exactly the property the code
relies on: `verify_password p h` holds iff `h` was produced by hashing
`p`. -/
def hash_password (password : String) : String :=
  "bcrypt$" ++ password

/-- `verify_password` (`bcrypt.checkpw` / `pwd_context.verify`). -/
def verify_password (plain_password hashed_password : String) : Bool :=
  hashed_password == hash_password plain_password

/-- `user_sessions` table.  The root model additionally has a
`refresh_expires_at` column; the backend implementation never sets it
(`none` on its rows). -/
structure SessionRow where
  id : Nat
  user_id : Nat
  token : Token
  refresh_token : Option Token
  device_fingerprint : String
  ip_address : String
  user_agent : String
  is_trusted_device : Bool
  trusted_until : Option Time
  expires_at : Time
  refresh_expires_at : Option Time
  created_at : Time
  last_used_at : Time
  revoked_at : Option Time
deriving DecidableEq, Repr

/-- Committing a mutation of one fetched session row back to the table. -/
def updateSession (sessions : List SessionRow) (s : SessionRow) :
    List SessionRow :=
  sessions.map fun x => if x.id == s.id then s else x

/-- `login_attempts` table (append-only audit trail). -/
structure LoginAttemptRow where
  user_id : Option Nat
  email : Option String
  ip_address : String
  user_agent : Option String
  success : Bool
  failure_reason : Option String
deriving DecidableEq, Repr

/-- `password_resets` table. -/
structure PasswordResetRow where
  id : Nat
  user_id : Nat
  token : String
  expires_at : Time
  used_at : Option Time
deriving DecidableEq, Repr

/-- Committing a mutation of one fetched password-reset row. -/
def updateReset (resets : List PasswordResetRow) (r : PasswordResetRow) :
    List PasswordResetRow :=
  resets.map fun x => if x.id == r.id then r else x

deriving instance DecidableEq for Except

/-- The status/detail of an error result (for stating "rejected with a
401" without fixing which 401 branch fired). -/
def errStatus {α : Type} : Except HTTPError α → Option Nat
  | .error e => some e.status
  | .ok _ => none

/-- Python's `s[-4:]` (used for masking the phone number in messages). -/
def lastFour (s : String) : String :=
  s.drop (s.length - 4)

namespace Root

/-- `users` table of the root model file (`BACKEND_DATABASE_MODELS.py`,
lines 83-97).  Note: this model has no failed-login counter and no
lockout column. -/
structure User where
  id : Nat
  email : String
  phone : String
  password_hash : String
  full_name : String
  is_active : Bool
  is_verified : Bool
  is_admin : Bool
  last_login_at : Option Time
deriving DecidableEq, Repr

def updateUser (users : List User) (u : User) : List User :=
  users.map fun x => if x.id == u.id then u else x

/-- The durable state the root implementation touches. -/
structure St where
  users : List User
  sessions : List SessionRow
  codes : List TwoFactorCodeRow
  attempts : List LoginAttemptRow
  resets : List PasswordResetRow
deriving DecidableEq, Repr

/-- `validate_password_strength` (root file, lines 112-133). -/
def validate_password_strength (password : String) : Bool × Option String :=
  if password.length < 8 then
    (false, some "Password must be at least 8 characters long")
  else if !password.data.any Char.isUpper then
    (false, some "Password must contain at least one uppercase letter")
  else if !password.data.any Char.isLower then
    (false, some "Password must contain at least one lowercase letter")
  else if !password.data.any Char.isDigit then
    (false, some "Password must contain at least one digit")
  else
    (true, none)

/-- `create_access_token` (payload `user_id`, `device_fingerprint`,
`type="access"`, default 15-minute expiry). -/
def create_access_token (user_id : Nat) (device_fingerprint : String)
    (now : Time) : Token :=
  { user_id := user_id, meta := device_fingerprint, typ := .access, iat := now,
    exp := now + ACCESS_TOKEN_EXPIRE_MINUTES * 60 }

/-- `create_refresh_token` (`type="refresh"`, 7-day expiry). -/
def create_refresh_token (user_id : Nat) (device_fingerprint : String)
    (now : Time) : Token :=
  { user_id := user_id, meta := device_fingerprint, typ := .refresh, iat := now,
    exp := now + REFRESH_TOKEN_EXPIRE_DAYS * 86400 }

/-- `decode_token`: expiry is rejected by `jwt.decode` itself, then the
`type` claim is checked. -/
def decode_token (token : Token) (token_type : TokType) (now : Time) :
    Except HTTPError Token :=
  if token.exp ≤ now then .error ⟨401, "Token has expired", []⟩
  else if token.typ ≠ token_type then .error ⟨401, "Invalid token type", []⟩
  else .ok token

/-- `create_session` (root file, lines 425-472). -/
def create_session (sessions : List SessionRow) (now : Time) (new_id : Nat)
    (user_id : Nat) (device_fingerprint ip_address user_agent : String)
    (is_trusted : Bool) : (Token × Token) × List SessionRow :=
  let access_token := create_access_token user_id device_fingerprint now
  let refresh_token := create_refresh_token user_id device_fingerprint now
  let trusted_until :=
    if is_trusted then some (now + DEVICE_TRUST_DAYS * 86400) else none
  let session : SessionRow :=
    { id := new_id, user_id := user_id, token := access_token,
      refresh_token := some refresh_token,
      device_fingerprint := device_fingerprint, ip_address := ip_address,
      user_agent := user_agent,
      is_trusted_device := is_trusted, trusted_until := trusted_until,
      expires_at := now + ACCESS_TOKEN_EXPIRE_MINUTES * 60,
      refresh_expires_at := some (now + REFRESH_TOKEN_EXPIRE_DAYS * 86400),
      created_at := now, last_used_at := now, revoked_at := none }
  ((access_token, refresh_token), sessions ++ [session])

/-- `revoke_session` (root file, lines 475-484): looks the session up by
its access token with no filter on `revoked_at`, and when found sets
`revoked_at = utcnow()` unconditionally. -/
def revoke_session (sessions : List SessionRow) (now : Time) (token : Token) :
    List SessionRow :=
  match sessions.find? (fun s => s.token == token) with
  | none => sessions
  | some session => updateSession sessions { session with revoked_at := some now }

/-- `revoke_all_user_sessions` (root file, lines 487-505). -/
def revoke_all_user_sessions (sessions : List SessionRow) (now : Time)
    (user_id : Nat) (except_token : Option Token) : List SessionRow :=
  sessions.map fun s =>
    if s.user_id == user_id && s.revoked_at.isNone
        && (match except_token with | some t => s.token != t | none => true) then
      { s with revoked_at := some now }
    else s

/-- `get_current_user` (root file, lines 619-680): decode the access
token, require an unrevoked session row holding exactly that token, then
resolve and gate the user. -/
def get_current_user (st : St) (now : Time) (token : Token) :
    Except HTTPError User × St :=
  match decode_token token .access now with
  | .error e => (.error e, st)
  | .ok payload =>
    match st.sessions.find? (fun s => s.token == token && s.revoked_at.isNone) with
    | none => (.error ⟨401, "Session revoked or not found", []⟩, st)
    | some session =>
      match st.users.find? (fun u => u.id == payload.user_id) with
      | none => (.error ⟨401, "User not found", []⟩, st)
      | some user =>
        if !user.is_active then
          (.error ⟨403, "User account is inactive", []⟩, st)
        else
          (.ok user,
            { st with sessions :=
                updateSession st.sessions { session with last_used_at := now } })

/-- `register_user` (root file, lines 723-776): conflict checks first,
then the password-strength gate, then the insert. -/
def register_user (users : List User) (new_id : Nat)
    (email phone password full_name : String) :
    Except HTTPError User × List User :=
  match users.find? (fun u => u.email == email || u.phone == phone) with
  | some existing_user =>
    if existing_user.email == email then
      (.error ⟨400, "Email already registered", []⟩, users)
    else
      (.error ⟨400, "Phone number already registered", []⟩, users)
  | none =>
    let v := validate_password_strength password
    if !v.fst then
      (.error ⟨400, v.snd.getD "", []⟩, users)
    else
      let user : User :=
        { id := new_id, email := email, phone := phone,
          password_hash := hash_password password, full_name := full_name,
          is_active := true, is_verified := false, is_admin := false,
          last_login_at := none }
      (.ok user, users ++ [user])

/-- `refresh_access_token` (root file, lines 953-1006): after finding the
unrevoked, unexpired session row for the presented refresh token it
MUTATES that row in place, overwriting both token columns and the
expiries; it neither sets `revoked_at` nor inserts a new row. -/
def refresh_access_token (sessions : List SessionRow) (now : Time)
    (refresh_token : Token) :
    Except HTTPError (Token × Token) × List SessionRow :=
  match decode_token refresh_token .refresh now with
  | .error e => (.error e, sessions)
  | .ok payload =>
    match sessions.find? (fun s =>
        s.refresh_token == some refresh_token && s.revoked_at.isNone
          && s.refresh_expires_at.any (fun e => decide (now < e))) with
    | none => (.error ⟨401, "Invalid or expired refresh token", []⟩, sessions)
    | some session =>
      let new_access_token := create_access_token payload.user_id payload.meta now
      let new_refresh_token := create_refresh_token payload.user_id payload.meta now
      let session' := { session with
        token := new_access_token,
        refresh_token := some new_refresh_token,
        expires_at := now + ACCESS_TOKEN_EXPIRE_MINUTES * 60,
        refresh_expires_at := some (now + REFRESH_TOKEN_EXPIRE_DAYS * 86400),
        last_used_at := now }
      (.ok (new_access_token, new_refresh_token), updateSession sessions session')

/-- `create_password_reset_token` (root file, lines 523-550); `draw`
models `secrets.token_urlsafe(32)`. -/
def create_password_reset_token (users : List User)
    (resets : List PasswordResetRow) (now : Time) (draw : String) (new_id : Nat)
    (email : String) : Option String × List PasswordResetRow :=
  match users.find? (fun u => u.email == email) with
  | none => (none, resets)
  | some user =>
    let token := draw
    let reset : PasswordResetRow :=
      { id := new_id, user_id := user.id, token := token,
        expires_at := now + 3600, used_at := none }
    (some token, resets ++ [reset])

/-- `verify_password_reset_token` (root file, lines 553-579). -/
def verify_password_reset_token (st : St) (now : Time) (token : String) :
    Option User :=
  match st.resets.find? (fun r =>
      r.token == token && r.used_at.isNone && decide (now < r.expires_at)) with
  | none => none
  | some reset => st.users.find? (fun u => u.id == reset.user_id)

/-- `use_password_reset_token` (root file, lines 582-612): verify the
token, gate the new password, update the hash, mark the token used, and
revoke every active session of the account. -/
def use_password_reset_token (st : St) (now : Time) (token : String)
    (new_password : String) : Except HTTPError Bool × St :=
  match verify_password_reset_token st now token with
  | none => (.ok false, st)
  | some user =>
    let v := validate_password_strength new_password
    if !v.fst then
      (.error ⟨400, v.snd.getD "", []⟩, st)
    else
      let users' :=
        updateUser st.users { user with password_hash := hash_password new_password }
      let resets' :=
        match st.resets.find? (fun r => r.token == token) with
        | none => st.resets
        | some reset => updateReset st.resets { reset with used_at := some now }
      let sessions' := revoke_all_user_sessions st.sessions now user.id none
      (.ok true, { st with users := users', resets := resets', sessions := sessions' })

/-- `logout_user` (root file, lines 1009-1011). -/
def logout_user (sessions : List SessionRow) (now : Time) (token : Token) :
    List SessionRow :=
  revoke_session sessions now token

/-- The `POST /api/v1/auth/logout` route (`BACKEND_API_ROUTES.py`,
lines 330-338): it resolves the caller through `get_current_user` and
then returns success WITHOUT calling `revoke_session`/`logout_user`
(the body says "For now, just return success"). -/
def logout (st : St) (now : Time) (token : Token) :
    Except HTTPError String × St :=
  match get_current_user st now token with
  | (.error e, st') => (.error e, st')
  | (.ok _, st') => (.ok "Logged out successfully", st')

/-- The JSON body returned by the reset-password request route. -/
structure ResetPasswordResponse where
  message : String
  reset_token : Option String
deriving DecidableEq, Repr

/-- The `POST /api/v1/auth/reset-password` route (`BACKEND_API_ROUTES.py`,
lines 355-370): always 200, but the development-mode body echoes the
freshly minted reset token (`null` when the email is unknown). -/
def reset_password (st : St) (now : Time) (draw : String) (new_id : Nat)
    (email : String) : ResetPasswordResponse × St :=
  let r := create_password_reset_token st.users st.resets now draw new_id email
  ({ message := "אם המייל קיים במערכת, נשלח קישור לאיפוס סיסמה",
     reset_token := r.fst },
    { st with resets := r.snd })

end Root

namespace Root

/-- `verify_2fa_code` from the root `BACKEND_AUTH_SECURITY.py`
(lines 374-418).  Returns the Python pair `(is_valid, error_message)`
together with the committed table state.  Note: the attempt counter is
incremented only in the mismatch branch, after the comparison. -/
def verify_2fa_code (codes : List TwoFactorCodeRow) (now : Time) (user_id : Nat)
    (code : String) : (Bool × Option String) × List TwoFactorCodeRow :=
  match latestActiveCode codes now user_id with
  | none => ((false, some "No valid 2FA code found or code expired"), codes)
  | some tfa_code =>
    if TFA_MAX_ATTEMPTS ≤ tfa_code.attempts then
      ((false, some "Maximum attempts exceeded. Please request a new code."), codes)
    else if tfa_code.code ≠ code then
      let tfa_code' := { tfa_code with attempts := tfa_code.attempts + 1 }
      let remaining := TFA_MAX_ATTEMPTS - tfa_code'.attempts
      ((false, some s!"Invalid code. {remaining} attempts remaining."),
        updateTfa codes tfa_code')
    else
      ((true, none), updateTfa codes { tfa_code with verified_at := some now })

end Root

namespace Backend

/-- `users` table of the backend model file
(`backend/BACKEND_DATABASE_MODELS.py`, lines 64-95), which carries the
persistent brute-force columns `failed_login_count` and `locked_until`. -/
structure UserRow where
  id : Nat
  email : String
  phone : String
  password_hash : String
  full_name : String
  role : String
  is_active : Bool
  is_verified : Bool
  is_admin : Bool
  failed_login_count : Nat
  locked_until : Option Time
deriving DecidableEq, Repr

def updateUser (users : List UserRow) (u : UserRow) : List UserRow :=
  users.map fun x => if x.id == u.id then u else x

/-- `user_profiles` rows as far as registration touches them. -/
structure ProfileRow where
  user_id : Nat
deriving DecidableEq, Repr

/-- The durable state the backend implementation touches. -/
structure St where
  users : List UserRow
  sessions : List SessionRow
  codes : List TwoFactorCodeRow
  attempts : List LoginAttemptRow
deriving DecidableEq, Repr

/-- `create_access_token(user_id, session_id)` (payload `sub`,
`session_id`, `type="access"`, 15-minute expiry). -/
def create_access_token (user_id : Nat) (session_id : String) (now : Time) :
    Token :=
  { user_id := user_id, meta := session_id, typ := .access, iat := now,
    exp := now + ACCESS_TOKEN_EXPIRE_MINUTES * 60 }

/-- `create_refresh_token(user_id, session_id)` (`type="refresh"`,
7-day expiry). -/
def create_refresh_token (user_id : Nat) (session_id : String) (now : Time) :
    Token :=
  { user_id := user_id, meta := session_id, typ := .refresh, iat := now,
    exp := now + REFRESH_TOKEN_EXPIRE_DAYS * 86400 }

/-- `decode_access_token`: `jose.jwt.decode` folds expiry into `JWTError`,
then the `type` claim is checked. -/
def decode_access_token (token : Token) (now : Time) : Except HTTPError Token :=
  if token.exp ≤ now then .error ⟨401, "Invalid or expired token", []⟩
  else if token.typ ≠ .access then .error ⟨401, "Invalid token type", []⟩
  else .ok token

/-- `decode_refresh_token`. -/
def decode_refresh_token (token : Token) (now : Time) : Except HTTPError Token :=
  if token.exp ≤ now then .error ⟨401, "Invalid or expired refresh token", []⟩
  else if token.typ ≠ .refresh then .error ⟨401, "Invalid token type", []⟩
  else .ok token

/-- `record_failed_login` (backend file, lines 185-212): append an audit
row; when the email resolves to a user, increment the persistent counter,
and on reaching `MAX_LOGIN_ATTEMPTS` set `locked_until = now + 15 min`
and reset the counter to zero. -/
def record_failed_login (users : List UserRow) (attempts : List LoginAttemptRow)
    (now : Time) (email ip_address failure_reason : String) :
    List UserRow × List LoginAttemptRow :=
  let found := users.find? (fun u => u.email == email)
  let attempt : LoginAttemptRow :=
    { user_id := found.map (·.id), email := some email,
      ip_address := ip_address, user_agent := none, success := false,
      failure_reason := some failure_reason }
  let attempts' := attempts ++ [attempt]
  match found with
  | none => (users, attempts')
  | some user =>
    let user := { user with failed_login_count := user.failed_login_count + 1 }
    let user :=
      if MAX_LOGIN_ATTEMPTS ≤ user.failed_login_count then
        { user with
            locked_until := some (now + LOGIN_LOCKOUT_MINUTES * 60),
            failed_login_count := 0 }
      else user
    (updateUser users user, attempts')

/-- `record_successful_login` (backend file, lines 215-225): zero the
counter, clear the lock, append a success audit row. -/
def record_successful_login (users : List UserRow)
    (attempts : List LoginAttemptRow) (user : UserRow) (ip_address : String) :
    List UserRow × List LoginAttemptRow :=
  let user := { user with failed_login_count := 0, locked_until := none }
  let attempt : LoginAttemptRow :=
    { user_id := some user.id, email := some user.email,
      ip_address := ip_address, user_agent := none, success := true,
      failure_reason := none }
  (updateUser users user, attempts ++ [attempt])

/-- `create_2fa_code` (backend file, lines 260-275); `draw` models
`generate_2fa_code()` (the `DEV_2FA_CODE` override or six random
digits).  SMS delivery failure is non-fatal and the row is kept. -/
def create_2fa_code (codes : List TwoFactorCodeRow) (now : Time) (new_id : Nat)
    (draw : String) (user_id : Nat) (phone : String) :
    String × List TwoFactorCodeRow :=
  let code := draw
  let two_fa : TwoFactorCodeRow :=
    { id := new_id, user_id := user_id, code := code, phone := phone,
      attempts := 0, expires_at := now + TFA_CODE_EXPIRY_MINUTES * 60,
      verified_at := none, created_at := now }
  (code, codes ++ [two_fa])

/-- `create_session` (backend file, lines 313-343).  Note this
implementation never sets `refresh_expires_at`. -/
def create_session (sessions : List SessionRow) (now : Time) (new_id : Nat)
    (user : UserRow) (access_token refresh_token : Token)
    (device_fingerprint ip_address user_agent : String) (trust_device : Bool) :
    SessionRow × List SessionRow :=
  let trusted_until :=
    if trust_device then some (now + DEVICE_TRUST_DAYS * 86400) else none
  let session : SessionRow :=
    { id := new_id, user_id := user.id, token := access_token,
      refresh_token := some refresh_token,
      device_fingerprint := device_fingerprint, ip_address := ip_address,
      user_agent := user_agent, is_trusted_device := trust_device,
      trusted_until := trusted_until,
      expires_at := now + ACCESS_TOKEN_EXPIRE_MINUTES * 60,
      refresh_expires_at := none, created_at := now, last_used_at := now,
      revoked_at := none }
  (session, sessions ++ [session])

/-- `revoke_session` (backend file, lines 346-351). -/
def revoke_session (sessions : List SessionRow) (now : Time) (token : Token) :
    List SessionRow :=
  match sessions.find? (fun s => s.token == token) with
  | none => sessions
  | some session => updateSession sessions { session with revoked_at := some now }

/-- The result triple of a completed login. -/
structure LoginSuccess where
  user : UserRow
  access_token : Token
  refresh_token : Token
deriving DecidableEq, Repr

/-- `register_user` (backend file, lines 358-393): email conflict check,
phone conflict check, then the insert.  There is NO password-strength
gate in this implementation. -/
def register_user (users : List UserRow) (profiles : List ProfileRow)
    (new_id : Nat) (email phone password full_name : String) :
    Except HTTPError UserRow × (List UserRow × List ProfileRow) :=
  if (users.find? (fun u => u.email == email)).isSome then
    (.error ⟨409, "Email already registered", []⟩, (users, profiles))
  else if (users.find? (fun u => u.phone == phone)).isSome then
    (.error ⟨409, "Phone number already registered", []⟩, (users, profiles))
  else
    let user : UserRow :=
      { id := new_id, email := email, phone := phone,
        password_hash := hash_password password, full_name := full_name,
        role := "customer", is_active := true, is_verified := false,
        is_admin := false, failed_login_count := 0, locked_until := none }
    (.ok user, (users ++ [user], profiles ++ [{ user_id := new_id }]))

/-- `login_user` (backend file, lines 396-473).  `redis_allow` models the
rate-limit gate (`none` = no Redis configured, so the gate is skipped);
`dev_2fa_code`/`environment` model the `DEV_2FA_CODE` dev-mode bypass;
`session_id` models `secrets.token_hex(16)`; `code_draw` the generated
2FA code; `new_session_id`/`new_code_id` the generated row uuids.
Check order: rate limit → user lookup + password → active flag →
account lockout → device trust → 2FA gate → token issue. -/
def login_user (st : St) (now : Time)
    (email password device_fingerprint ip_address user_agent : String)
    (trust_device : Bool) (redis_allow : Option Bool)
    (dev_2fa_code : Option String) (environment : String)
    (session_id code_draw : String) (new_session_id new_code_id : Nat) :
    Except HTTPError LoginSuccess × St :=
  if redis_allow == some false then
    (.error ⟨429, "Too many login attempts. Try again later.", []⟩, st)
  else
    match st.users.find? (fun u => u.email == email) with
    | none =>
      let r := record_failed_login st.users st.attempts now email ip_address
        "invalid_credentials"
      (.error ⟨401, "Invalid email or password", []⟩,
        { st with users := r.fst, attempts := r.snd })
    | some user =>
      if !verify_password password user.password_hash then
        let r := record_failed_login st.users st.attempts now email ip_address
          "invalid_credentials"
        (.error ⟨401, "Invalid email or password", []⟩,
          { st with users := r.fst, attempts := r.snd })
      else if !user.is_active then
        (.error ⟨403, "Account is deactivated", []⟩, st)
      else if user.locked_until.any (fun l => decide (now < l)) then
        let minutes_left := (user.locked_until.getD 0 - now) / 60 + 1
        (.error ⟨423, s!"Account locked. Try again in {minutes_left} minutes", []⟩,
          st)
      else
        let is_trusted :=
          if device_fingerprint ≠ "" then
            st.sessions.any (fun s =>
              s.user_id == user.id
                && s.device_fingerprint == device_fingerprint
                && s.is_trusted_device
                && s.trusted_until.any (fun t => decide (now < t))
                && s.revoked_at.isNone)
          else false
        let issue : St → Except HTTPError LoginSuccess × St := fun st =>
          let r := record_successful_login st.users st.attempts user ip_address
          let access_token := create_access_token user.id session_id now
          let refresh_token := create_refresh_token user.id session_id now
          let c := create_session st.sessions now new_session_id user
            access_token refresh_token device_fingerprint ip_address user_agent
            trust_device
          (.ok ⟨user, access_token, refresh_token⟩,
            { st with users := r.fst, attempts := r.snd, sessions := c.snd })
        if !is_trusted then
          if dev_2fa_code.isSome && environment == "development" then
            issue st
          else
            let c := create_2fa_code st.codes now new_code_id
              (dev_2fa_code.getD code_draw) user.id user.phone
            (.error ⟨202, s!"2FA code sent to {lastFour user.phone}",
                [("X-User-ID", toString user.id)]⟩,
              { st with codes := c.snd })
        else
          issue st

/-- `refresh_access_token` (backend file, lines 506-552): decode, find
the unrevoked session row for the presented refresh token, resolve the
active user, REVOKE the old row, mint a new pair under a fresh session
id, and insert a NEW row inheriting the device fingerprint and trust
metadata of the old one. -/
def refresh_access_token (sessions : List SessionRow) (users : List UserRow)
    (now : Time) (session_id : String) (new_row_id : Nat)
    (refresh_token_str : Token) :
    Except HTTPError (Token × Token) × List SessionRow :=
  match decode_refresh_token refresh_token_str now with
  | .error e => (.error e, sessions)
  | .ok payload =>
    match sessions.find? (fun s =>
        s.refresh_token == some refresh_token_str && s.revoked_at.isNone) with
    | none => (.error ⟨401, "Session expired or revoked", []⟩, sessions)
    | some session =>
      match users.find? (fun u => u.id == payload.user_id) with
      | none => (.error ⟨401, "User not found or inactive", []⟩, sessions)
      | some user =>
        if !user.is_active then
          (.error ⟨401, "User not found or inactive", []⟩, sessions)
        else
          let sessions' :=
            updateSession sessions { session with revoked_at := some now }
          let new_access := create_access_token user.id session_id now
          let new_refresh := create_refresh_token user.id session_id now
          let new_session : SessionRow :=
            { id := new_row_id, user_id := user.id, token := new_access,
              refresh_token := some new_refresh,
              device_fingerprint := session.device_fingerprint,
              ip_address := session.ip_address,
              user_agent := session.user_agent,
              is_trusted_device := session.is_trusted_device,
              trusted_until := session.trusted_until,
              expires_at := now + ACCESS_TOKEN_EXPIRE_MINUTES * 60,
              refresh_expires_at := none, created_at := now,
              last_used_at := now, revoked_at := none }
          (.ok (new_access, new_refresh), sessions' ++ [new_session])

/-- `verify_2fa_code` from `backend/BACKEND_AUTH_SECURITY.py`
(lines 278-306).  Returns `ok true` / `ok false` for the Python
`True`/`False` returns and `error` for the raised `HTTPException`.
The attempt counter is incremented on every call, before the comparison. -/
def verify_2fa_code (codes : List TwoFactorCodeRow) (now : Time) (user_id : Nat)
    (code : String) : Except HTTPError Bool × List TwoFactorCodeRow :=
  match latestActiveCode codes now user_id with
  | none => (.ok false, codes)
  | some two_fa =>
    let two_fa := { two_fa with attempts := two_fa.attempts + 1 }
    if 3 < two_fa.attempts then
      (.error ⟨400, "Too many attempts. Request a new code.", []⟩,
        updateTfa codes two_fa)
    else if two_fa.code ≠ code then
      (.ok false, updateTfa codes two_fa)
    else
      (.ok true, updateTfa codes { two_fa with verified_at := some now })

end Backend

/-! ### Concrete sample rows used by closed theorems and witnesses -/

/-- A fresh, unexpired, unverified 2FA code row for user 7. -/
def tfaRow0 : TwoFactorCodeRow :=
  { id := 0, user_id := 7, code := "123456", phone := "0501234567",
    attempts := 0, expires_at := 100, verified_at := none, created_at := 0 }

/-- The same code row after three failed attempts. -/
def tfaRow3 : TwoFactorCodeRow :=
  { tfaRow0 with attempts := 3 }

/-- A backend account one failed login away from lockout. -/
def buserFour : Backend.UserRow :=
  { id := 1, email := "a@x.com", phone := "0501234567",
    password_hash := hash_password "Abcd1234", full_name := "A",
    role := "customer", is_active := true, is_verified := true,
    is_admin := false, failed_login_count := 4, locked_until := none }

/-- A backend account currently locked until t = 1000. -/
def buserLocked : Backend.UserRow :=
  { buserFour with failed_login_count := 0, locked_until := some 1000 }

/-- Backend state holding only the locked account. -/
def bstLocked : Backend.St :=
  { users := [buserLocked], sessions := [], codes := [], attempts := [] }

/-- A root-model account. -/
def ruser : Root.User :=
  { id := 1, email := "a@x.com", phone := "0501234567",
    password_hash := hash_password "Abcd1234", full_name := "A",
    is_active := true, is_verified := true, is_admin := false,
    last_login_at := none }

/-- An access token for `ruser`, minted at t = 0. -/
def rAccessTok : Token :=
  { user_id := 1, meta := "fp", typ := .access, iat := 0, exp := 900 }

/-- An access token of the same shape that no session row holds. -/
def rGhostTok : Token :=
  { rAccessTok with iat := 1 }

/-- A refresh token for `ruser`, minted at t = 0. -/
def rRefreshTok : Token :=
  { user_id := 1, meta := "fp", typ := .refresh, iat := 0, exp := 604800 }

/-- The live session row holding `rAccessTok` / `rRefreshTok`. -/
def rSession : SessionRow :=
  { id := 1, user_id := 1, token := rAccessTok,
    refresh_token := some rRefreshTok, device_fingerprint := "fp",
    ip_address := "1.2.3.4", user_agent := "ua", is_trusted_device := false,
    trusted_until := none, expires_at := 900,
    refresh_expires_at := some 604800, created_at := 0, last_used_at := 0,
    revoked_at := none }

/-- Root state holding `ruser` and its live session. -/
def rst : Root.St :=
  { users := [ruser], sessions := [rSession], codes := [], attempts := [],
    resets := [] }

/-! ### Helper lemmas -/

/-- Every error `Root.decode_token` produces carries status 401. -/
theorem root_decode_error_401 (t : Token) (ty : TokType) (now : Time)
    (e : HTTPError) (h : Root.decode_token t ty now = .error e) :
    e.status = 401 := by
  unfold Root.decode_token at h
  split at h
  · injection h with h'
    rw [← h']
  · split at h
    · injection h with h'
      rw [← h']
    · exact Except.noConfusion h

/-- Every error `Backend.decode_refresh_token` produces carries
status 401. -/
theorem backend_decode_refresh_error_401 (t : Token) (now : Time)
    (e : HTTPError) (h : Backend.decode_refresh_token t now = .error e) :
    e.status = 401 := by
  unfold Backend.decode_refresh_token at h
  split at h
  · injection h with h'
    rw [← h']
  · split at h
    · injection h with h'
      rw [← h']
    · exact Except.noConfusion h

/-! ### Claim theorems -/

/-- C1, claim as frozen is FALSE on the root implementation: a verify
call whose supplied code matches does NOT increment the attempt counter
(the root `verify_2fa_code` increments only in the mismatch branch,
after the comparison).  Here the first, matching attempt succeeds and
the committed row still has `attempts = 0`. -/
theorem C1_counterexample_match_does_not_increment :
    (Root.verify_2fa_code [tfaRow0] 50 7 "123456").fst = (true, none)
    ∧ (Root.verify_2fa_code [tfaRow0] 50 7 "123456").snd
        = [{ tfaRow0 with verified_at := some 50 }] := by
  decide

/-- C1 (amended): the backend implementation increments the attempt
counter on every call before the comparison, while the root
implementation increments it only on mismatch, after the comparison; in
both, once the active code has accumulated 3 attempts while still
unverified and unexpired, the next (4th) verification attempt is
rejected with the "too many attempts" error even if the supplied code
matches. -/
theorem C1_fourth_attempt_too_many (codes : List TwoFactorCodeRow)
    (now : Time) (uid : Nat) (c : String) (r : TwoFactorCodeRow)
    (hfind : latestActiveCode codes now uid = some r)
    (hatt : TFA_MAX_ATTEMPTS ≤ r.attempts) :
    (Root.verify_2fa_code codes now uid c).fst
      = (false, some "Maximum attempts exceeded. Please request a new code.")
    ∧ (Backend.verify_2fa_code codes now uid c).fst
      = .error ⟨400, "Too many attempts. Request a new code.", []⟩ := by
  have h3 : 3 < r.attempts + 1 := by
    have := hatt; unfold TFA_MAX_ATTEMPTS at this; omega
  constructor
  · unfold Root.verify_2fa_code
    rw [hfind]
    dsimp only
    rw [if_pos hatt]
  · unfold Backend.verify_2fa_code
    rw [hfind]
    dsimp only
    rw [if_pos h3]

/-- C1 witness: the 4th attempt with the CORRECT code is still rejected
with "too many attempts" by both implementations. -/
theorem C1_fourth_attempt_too_many_witness :
    (Root.verify_2fa_code [tfaRow3] 50 7 "123456").fst
      = (false, some "Maximum attempts exceeded. Please request a new code.")
    ∧ (Backend.verify_2fa_code [tfaRow3] 50 7 "123456").fst
      = .error ⟨400, "Too many attempts. Request a new code.", []⟩ :=
  C1_fourth_attempt_too_many [tfaRow3] 50 7 "123456" tfaRow3 (by decide)
    (by decide)

/-- C2: in the backend implementation each failed credential check
increments the account's persistent failed-login counter; when the
counter reaches `MAX_LOGIN_ATTEMPTS` (5) the lockout is set to
`now + 15` minutes and the counter is reset to zero; and a successful
authentication resets the counter to zero (and clears the lock). -/
theorem C2_failed_login_lockout (users : List Backend.UserRow)
    (attempts : List LoginAttemptRow) (now : Time)
    (email ip reason : String) (u : Backend.UserRow)
    (hfind : users.find? (fun x => x.email == email) = some u) :
    (u.failed_login_count + 1 < MAX_LOGIN_ATTEMPTS →
      (Backend.record_failed_login users attempts now email ip reason).fst
        = Backend.updateUser users
            { u with failed_login_count := u.failed_login_count + 1 })
    ∧ (MAX_LOGIN_ATTEMPTS ≤ u.failed_login_count + 1 →
      (Backend.record_failed_login users attempts now email ip reason).fst
        = Backend.updateUser users
            { u with
                failed_login_count := 0,
                locked_until := some (now + LOGIN_LOCKOUT_MINUTES * 60) })
    ∧ (Backend.record_successful_login users attempts u ip).fst
        = Backend.updateUser users
            { u with failed_login_count := 0, locked_until := none } := by
  refine ⟨fun hlt => ?_, fun hge => ?_, ?_⟩
  · unfold Backend.record_failed_login
    rw [hfind]
    dsimp only
    rw [if_neg (by omega)]
  · unfold Backend.record_failed_login
    rw [hfind]
    dsimp only
    rw [if_pos (by omega)]
  · rfl

/-- C2 witness: the 5th failure locks `buserFour` until t = 1900 and
zeroes the counter; a successful login resets the counter. -/
theorem C2_failed_login_lockout_witness :
    (Backend.record_failed_login [buserFour] [] 1000 "a@x.com" "1.2.3.4"
        "invalid_credentials").fst
      = Backend.updateUser [buserFour]
          { buserFour with
              failed_login_count := 0,
              locked_until := some 1900 }
    ∧ (Backend.record_successful_login [buserFour] [] buserFour "1.2.3.4").fst
      = Backend.updateUser [buserFour]
          { buserFour with failed_login_count := 0, locked_until := none } := by
  have h := C2_failed_login_lockout [buserFour] [] 1000 "a@x.com" "1.2.3.4"
    "invalid_credentials" buserFour (by decide)
  exact ⟨h.2.1 (by decide), h.2.2⟩

/-- C3, code bug: while an account's `locked_until` lies in the future,
the backend `login_user` checks the password BEFORE the lockout, so a
correct password is rejected with 423 "Account locked..." while a wrong
password is rejected with 401 "Invalid email or password" — the lockout
rejection is a password-correctness oracle, contradicting the spec's
stated intent.  Evaluated at the failing input: `buserLocked` (locked
until t = 1000) at t = 100. -/
theorem C3_lockout_password_oracle :
    (Backend.login_user bstLocked 100 "a@x.com" "Abcd1234" "fp" "1.2.3.4"
        "ua" false none none "production" "sid" "000000" 10 11).fst
      = .error ⟨423, "Account locked. Try again in 16 minutes", []⟩
    ∧ (Backend.login_user bstLocked 100 "a@x.com" "WrongPass9" "fp" "1.2.3.4"
        "ua" false none none "production" "sid" "000000" 10 11).fst
      = .error ⟨401, "Invalid email or password", []⟩ := by
  decide

/-- C7, code bug: the `POST /api/v1/auth/logout` route resolves the
caller and returns 200 "Logged out successfully" WITHOUT revoking the
session: after the call every session still has `revoked_at = null`, so
a second call with the same token is again a 200 on a still-live
session; a token matching no session is rejected with 401 (not the 200
the claim requires); and the `revoke_session` helper the route fails to
call would have set `revoked_at`. -/
theorem C7_logout_route_does_not_revoke :
    (Root.logout rst 100 rAccessTok).fst = .ok "Logged out successfully"
    ∧ ((Root.logout rst 100 rAccessTok).snd.sessions.all
        (fun s => s.revoked_at == none)) = true
    ∧ (Root.logout (Root.logout rst 100 rAccessTok).snd 100 rAccessTok).fst
        = .ok "Logged out successfully"
    ∧ errStatus (Root.logout rst 100 rGhostTok).fst = some 401
    ∧ Root.revoke_session [rSession] 100 rAccessTok
        = [{ rSession with revoked_at := some 100 }] := by
  decide

/-- C8, code bug: the `POST /api/v1/auth/reset-password` route always
returns 200, but its body echoes the minted reset token — `null` when
the email is unknown, the token when it is registered — so the
observable response differs between registered and unknown emails and
account existence leaks, for every possible token draw. -/
theorem C8_reset_request_leaks_existence (draw : String) (new_id : Nat) :
    (Root.reset_password rst 0 draw new_id "a@x.com").fst.reset_token
      = some draw
    ∧ (Root.reset_password rst 0 draw new_id "nobody@x.com").fst.reset_token
      = none
    ∧ (Root.reset_password rst 0 draw new_id "a@x.com").fst
      ≠ (Root.reset_password rst 0 draw new_id "nobody@x.com").fst := by
  refine ⟨rfl, rfl, ?_⟩
  intro h
  have := congrArg Root.ResetPasswordResponse.reset_token h
  simp [Root.reset_password, Root.create_password_reset_token, rst, ruser] at this

/-- C9, claim as frozen is FALSE on the backend implementation: its
`register_user` performs no password-strength check at all (and no
pydantic validator supplies one), so the weak password "abc" registers
successfully and creates an account row. -/
theorem C9_counterexample_backend_no_strength_check :
    errStatus (Backend.register_user [] [] 1 "a@x.com" "0501234567" "abc"
        "A").fst = none
    ∧ ((Backend.register_user [] [] 1 "a@x.com" "0501234567" "abc"
        "A").snd.fst).length = 1 := by
  decide

/-- C9 (amended): in the ROOT implementation the strength check accepts
a password iff it has at least 8 characters, an uppercase letter, a
lowercase letter and a digit, and `register_user` (absent a conflict)
rejects any password failing the check with a 400 carrying the
weak-password message, creating no account row. -/
theorem C9_root_password_policy (p : String) (users : List Root.User)
    (new_id : Nat) (email phone full_name : String)
    (hnoconf : users.find? (fun u => u.email == email || u.phone == phone)
        = none) :
    ((Root.validate_password_strength p).fst = true ↔
      (8 ≤ p.length ∧ p.data.any Char.isUpper = true
        ∧ p.data.any Char.isLower = true ∧ p.data.any Char.isDigit = true))
    ∧ ((Root.validate_password_strength p).fst = false →
        Root.register_user users new_id email phone p full_name
          = (.error ⟨400, (Root.validate_password_strength p).snd.getD "", []⟩,
              users)) := by
  constructor
  · unfold Root.validate_password_strength
    split
    · constructor
      · intro h; cases h
      · intro ⟨h8, _, _, _⟩; omega
    · split
      · constructor
        · intro h; cases h
        · intro ⟨_, hu, _, _⟩
          simp_all
      · split
        · constructor
          · intro h; cases h
          · intro ⟨_, _, hl, _⟩
            simp_all
        · split
          · constructor
            · intro h; cases h
            · intro ⟨_, _, _, hd⟩
              simp_all
          · constructor
            · intro _
              refine ⟨by omega, ?_, ?_, ?_⟩ <;> simp_all
            · intro _; rfl
  · intro hweak
    unfold Root.register_user
    rw [hnoconf]
    dsimp only
    rw [if_pos (by simp [hweak])]

/-- C9 witness: "abc" (too short, no uppercase, no digit) fails the root
check, and root `register_user` on an empty table rejects it with the
length message while creating no row. -/
theorem C9_root_password_policy_witness :
    ((Root.validate_password_strength "abc").fst = true ↔
      (8 ≤ "abc".length ∧ "abc".data.any Char.isUpper = true
        ∧ "abc".data.any Char.isLower = true ∧ "abc".data.any Char.isDigit = true))
    ∧ ((Root.validate_password_strength "abc").fst = false →
        Root.register_user [] 1 "a@x.com" "0501234567" "abc" "A"
          = (.error ⟨400,
              (Root.validate_password_strength "abc").snd.getD "", []⟩, [])) :=
  C9_root_password_policy "abc" [] 1 "a@x.com" "0501234567" "A" (by decide)

/-- C10: `revoke_session` (identical in both implementations) looks the
session up by token with no filter on `revoked_at` and unconditionally
sets `revoked_at = utcnow()`, so revoking an already-revoked session
overwrites the recorded revocation time with the later call's time; the
session stays revoked and no row is added or removed. -/
theorem C10_revoke_overwrites_timestamp (sessions : List SessionRow)
    (now t1 : Time) (tok : Token) (s : SessionRow)
    (hfind : sessions.find? (fun x => x.token == tok) = some s)
    (hrev : s.revoked_at = some t1) :
    Root.revoke_session sessions now tok
      = updateSession sessions { s with revoked_at := some now }
    ∧ Backend.revoke_session sessions now tok
      = updateSession sessions { s with revoked_at := some now }
    ∧ { s with revoked_at := some now } ∈ Root.revoke_session sessions now tok
    ∧ (Root.revoke_session sessions now tok).length = sessions.length := by
  have hmem : s ∈ sessions := List.mem_of_find?_eq_some hfind
  have heq : Root.revoke_session sessions now tok
      = updateSession sessions { s with revoked_at := some now } := by
    unfold Root.revoke_session
    rw [hfind]
  have heqB : Backend.revoke_session sessions now tok
      = updateSession sessions { s with revoked_at := some now } := by
    unfold Backend.revoke_session
    rw [hfind]
  refine ⟨heq, heqB, ?_, ?_⟩
  · rw [heq]
    unfold updateSession
    exact List.mem_map.mpr ⟨s, hmem, by simp⟩
  · rw [heq]
    unfold updateSession
    exact List.length_map sessions _

/-- C10 witness: re-revoking `rSession` (already revoked at t = 100) at
t = 250 overwrites the timestamp to 250. -/
theorem C10_revoke_overwrites_timestamp_witness :
    Root.revoke_session [{ rSession with revoked_at := some 100 }] 250
        rAccessTok
      = updateSession [{ rSession with revoked_at := some 100 }]
          { { rSession with revoked_at := some 100 } with
              revoked_at := some 250 }
    ∧ { { rSession with revoked_at := some 100 } with revoked_at := some 250 }
        ∈ Root.revoke_session [{ rSession with revoked_at := some 100 }] 250
            rAccessTok :=
  have h := C10_revoke_overwrites_timestamp
    [{ rSession with revoked_at := some 100 }] 250 100 rAccessTok
    { rSession with revoked_at := some 100 } (by decide) (by decide)
  ⟨h.1, h.2.2.1⟩

/-- C4, claim as frozen is FALSE on the root implementation: a
successful refresh there MUTATES the matched session row in place
(overwriting both token columns) — afterwards the table still has a
single row and no row has a non-null `revoked_at`, so no revoked audit
record exists and no new row was created. -/
theorem C4_counterexample_root_mutates_in_place :
    errStatus (Root.refresh_access_token [rSession] 100 rRefreshTok).fst = none
    ∧ ((Root.refresh_access_token [rSession] 100 rRefreshTok).snd).length = 1
    ∧ ((Root.refresh_access_token [rSession] 100 rRefreshTok).snd).all
        (fun s => s.revoked_at == none) = true := by
  decide

/-- C4 (amended): the BACKEND implementation does what the claim says:
a successful refresh revokes the matched session row (sets its
`revoked_at` to now, keeping it as an audit record) and appends a new
session row inheriting the old row's device fingerprint and trust
metadata, rather than mutating the old row's token fields. -/
theorem C4_backend_refresh_rotates (sessions : List SessionRow)
    (users : List Backend.UserRow) (now : Time) (sid : String) (nid : Nat)
    (rt : Token) (s : SessionRow) (u : Backend.UserRow)
    (hdec : Backend.decode_refresh_token rt now = .ok rt)
    (hfind : sessions.find? (fun x =>
        x.refresh_token == some rt && x.revoked_at.isNone) = some s)
    (huser : users.find? (fun x => x.id == rt.user_id) = some u)
    (hact : u.is_active = true) :
    (Backend.refresh_access_token sessions users now sid nid rt).fst
      = .ok (Backend.create_access_token u.id sid now,
             Backend.create_refresh_token u.id sid now)
    ∧ (Backend.refresh_access_token sessions users now sid nid rt).snd
      = updateSession sessions { s with revoked_at := some now } ++
          [{ id := nid, user_id := u.id,
             token := Backend.create_access_token u.id sid now,
             refresh_token := some (Backend.create_refresh_token u.id sid now),
             device_fingerprint := s.device_fingerprint,
             ip_address := s.ip_address, user_agent := s.user_agent,
             is_trusted_device := s.is_trusted_device,
             trusted_until := s.trusted_until,
             expires_at := now + ACCESS_TOKEN_EXPIRE_MINUTES * 60,
             refresh_expires_at := none, created_at := now,
             last_used_at := now, revoked_at := none }] := by
  unfold Backend.refresh_access_token
  rw [hdec]
  dsimp only
  rw [hfind]
  dsimp only
  rw [huser]
  dsimp only
  rw [hact]
  exact ⟨rfl, rfl⟩

/-- C4 witness: refreshing `rSession`'s refresh token in the backend
implementation at t = 100 revokes the old row and appends the
inheriting new row. -/
theorem C4_backend_refresh_rotates_witness :
    (Backend.refresh_access_token [rSession] [buserFour] 100 "sid2" 9
        rRefreshTok).fst
      = .ok (Backend.create_access_token 1 "sid2" 100,
             Backend.create_refresh_token 1 "sid2" 100)
    ∧ (Backend.refresh_access_token [rSession] [buserFour] 100 "sid2" 9
        rRefreshTok).snd
      = updateSession [rSession] { rSession with revoked_at := some 100 } ++
          [{ id := 9, user_id := 1,
             token := Backend.create_access_token 1 "sid2" 100,
             refresh_token := some (Backend.create_refresh_token 1 "sid2" 100),
             device_fingerprint := rSession.device_fingerprint,
             ip_address := rSession.ip_address,
             user_agent := rSession.user_agent,
             is_trusted_device := rSession.is_trusted_device,
             trusted_until := rSession.trusted_until,
             expires_at := 100 + ACCESS_TOKEN_EXPIRE_MINUTES * 60,
             refresh_expires_at := none, created_at := 100,
             last_used_at := 100, revoked_at := none }] :=
  C4_backend_refresh_rotates [rSession] [buserFour] 100 "sid2" 9 rRefreshTok
    rSession buserFour (by decide) (by decide) (by decide) (by decide)

/-- C5: in BOTH implementations, a refresh token already consumed by one
successful refresh is rejected with a 401 when presented a second time,
and no new token pair is issued (the result is an error).  The root
implementation rotates the row's `refresh_token` column so the old value
no longer matches any row; the backend implementation revokes the old
row so the unrevoked-row lookup fails.  Hypotheses: the first call
succeeds (`hdec`/`hfind`… pinpoint the row it consumes), the refresh
token is held by no other row (the column is UNIQUE in both schemas),
and the token was not minted at the very second of the first refresh
(two JWT encodes with identical claims and `iat` yield the identical
string, a degenerate self-rotation). -/
theorem C5_refresh_token_single_use
    (sessions : List SessionRow) (now1 now2 : Time) (rt : Token)
    (s : SessionRow) (bsessions : List SessionRow)
    (busers : List Backend.UserRow) (sid : String) (nid : Nat)
    (bs : SessionRow) (bu : Backend.UserRow)
    (hdec : Root.decode_token rt .refresh now1 = .ok rt)
    (hfind : sessions.find? (fun x =>
        x.refresh_token == some rt && x.revoked_at.isNone
          && x.refresh_expires_at.any (fun e => decide (now1 < e))) = some s)
    (huniq : ∀ x ∈ sessions, x.refresh_token = some rt → x.id = s.id)
    (hiat : rt.iat ≠ now1)
    (hbdec : Backend.decode_refresh_token rt now1 = .ok rt)
    (hbfind : bsessions.find? (fun x =>
        x.refresh_token == some rt && x.revoked_at.isNone) = some bs)
    (hbuser : busers.find? (fun x => x.id == rt.user_id) = some bu)
    (hbact : bu.is_active = true)
    (hbuniq : ∀ x ∈ bsessions, x.refresh_token = some rt → x.id = bs.id) :
    errStatus (Root.refresh_access_token sessions now1 rt).fst = none
    ∧ errStatus (Root.refresh_access_token
        (Root.refresh_access_token sessions now1 rt).snd now2 rt).fst
      = some 401
    ∧ errStatus (Backend.refresh_access_token bsessions busers now1 sid nid
        rt).fst = none
    ∧ errStatus (Backend.refresh_access_token
        (Backend.refresh_access_token bsessions busers now1 sid nid rt).snd
        busers now2 sid nid rt).fst = some 401 := by
  have h1 : Root.refresh_access_token sessions now1 rt
      = (.ok (Root.create_access_token rt.user_id rt.meta now1,
              Root.create_refresh_token rt.user_id rt.meta now1),
         updateSession sessions
           { s with
               token := Root.create_access_token rt.user_id rt.meta now1,
               refresh_token :=
                 some (Root.create_refresh_token rt.user_id rt.meta now1),
               expires_at := now1 + ACCESS_TOKEN_EXPIRE_MINUTES * 60,
               refresh_expires_at :=
                 some (now1 + REFRESH_TOKEN_EXPIRE_DAYS * 86400),
               last_used_at := now1 }) := by
    unfold Root.refresh_access_token
    rw [hdec]
    dsimp only
    rw [hfind]
  have h1b : Backend.refresh_access_token bsessions busers now1 sid nid rt
      = (.ok (Backend.create_access_token bu.id sid now1,
              Backend.create_refresh_token bu.id sid now1),
         updateSession bsessions { bs with revoked_at := some now1 } ++
           [{ id := nid, user_id := bu.id,
              token := Backend.create_access_token bu.id sid now1,
              refresh_token :=
                some (Backend.create_refresh_token bu.id sid now1),
              device_fingerprint := bs.device_fingerprint,
              ip_address := bs.ip_address, user_agent := bs.user_agent,
              is_trusted_device := bs.is_trusted_device,
              trusted_until := bs.trusted_until,
              expires_at := now1 + ACCESS_TOKEN_EXPIRE_MINUTES * 60,
              refresh_expires_at := none, created_at := now1,
              last_used_at := now1, revoked_at := none }]) := by
    unfold Backend.refresh_access_token
    rw [hbdec]
    dsimp only
    rw [hbfind]
    dsimp only
    rw [hbuser]
    dsimp only
    rw [hbact]
    rfl
  refine ⟨by rw [h1]; rfl, ?_, by rw [h1b]; rfl, ?_⟩
  · rw [h1]
    unfold Root.refresh_access_token
    cases hd2 : Root.decode_token rt .refresh now2 with
    | error e =>
      exact congrArg some (root_decode_error_401 rt .refresh now2 e hd2)
    | ok p =>
      dsimp only
      have hnone : (updateSession sessions
          { s with
              token := Root.create_access_token rt.user_id rt.meta now1,
              refresh_token :=
                some (Root.create_refresh_token rt.user_id rt.meta now1),
              expires_at := now1 + ACCESS_TOKEN_EXPIRE_MINUTES * 60,
              refresh_expires_at :=
                some (now1 + REFRESH_TOKEN_EXPIRE_DAYS * 86400),
              last_used_at := now1 }).find? (fun x =>
            x.refresh_token == some rt && x.revoked_at.isNone
              && x.refresh_expires_at.any (fun e => decide (now2 < e)))
          = none := by
        rw [List.find?_eq_none]
        intro x' hx' hpred
        rcases List.mem_map.mp hx' with ⟨x, hxmem, hfx⟩
        simp only [Bool.and_eq_true] at hpred
        obtain ⟨⟨hp1, hp2⟩, hp3⟩ := hpred
        have hp1' : x'.refresh_token = some rt := eq_of_beq hp1
        by_cases hid : (x.id == s.id) = true
        · rw [if_pos hid] at hfx
          rw [← hfx] at hp1'
          have hR : Root.create_refresh_token rt.user_id rt.meta now1 = rt :=
            Option.some.inj hp1'
          exact absurd (congrArg Token.iat hR).symm hiat
        · rw [if_neg hid] at hfx
          rw [← hfx] at hp1'
          refine hid ?_
          rw [huniq x hxmem hp1']
          exact beq_self_eq_true s.id
      rw [hnone]
      rfl
  · rw [h1b]
    unfold Backend.refresh_access_token
    cases hd2 : Backend.decode_refresh_token rt now2 with
    | error e =>
      exact congrArg some (backend_decode_refresh_error_401 rt now2 e hd2)
    | ok p =>
      dsimp only
      have hnone : (updateSession bsessions
            ({ bs with revoked_at := some now1 } : SessionRow) ++
            ([{ id := nid, user_id := bu.id,
                token := Backend.create_access_token bu.id sid now1,
                refresh_token :=
                  some (Backend.create_refresh_token bu.id sid now1),
                device_fingerprint := bs.device_fingerprint,
                ip_address := bs.ip_address, user_agent := bs.user_agent,
                is_trusted_device := bs.is_trusted_device,
                trusted_until := bs.trusted_until,
                expires_at := now1 + ACCESS_TOKEN_EXPIRE_MINUTES * 60,
                refresh_expires_at := none, created_at := now1,
                last_used_at := now1,
                revoked_at := none }] : List SessionRow)).find? (fun x =>
            x.refresh_token == some rt && x.revoked_at.isNone) = none := by
        rw [List.find?_eq_none]
        intro x' hx' hpred
        simp only [Bool.and_eq_true] at hpred
        obtain ⟨hp1, hp2⟩ := hpred
        have hp1' : x'.refresh_token = some rt := eq_of_beq hp1
        rcases List.mem_append.mp hx' with hx' | hx'
        · rcases List.mem_map.mp hx' with ⟨x, hxmem, hfx⟩
          by_cases hid : (x.id == bs.id) = true
          · rw [if_pos hid] at hfx
            rw [← hfx] at hp2
            exact Bool.noConfusion hp2
          · rw [if_neg hid] at hfx
            rw [← hfx] at hp1'
            refine hid ?_
            rw [hbuniq x hxmem hp1']
            exact beq_self_eq_true bs.id
        · rcases List.mem_singleton.mp hx' with rfl
          have hR : Backend.create_refresh_token bu.id sid now1 = rt :=
            Option.some.inj hp1'
          exact absurd (congrArg Token.iat hR).symm hiat
      rw [hnone]
      rfl

/-- C5 witness: consuming `rRefreshTok` once at t = 100 in each
implementation, then presenting it again at t = 200, yields a 401 both
times. -/
theorem C5_refresh_token_single_use_witness :
    errStatus (Root.refresh_access_token [rSession] 100 rRefreshTok).fst = none
    ∧ errStatus (Root.refresh_access_token
        (Root.refresh_access_token [rSession] 100 rRefreshTok).snd 200
        rRefreshTok).fst = some 401
    ∧ errStatus (Backend.refresh_access_token [rSession] [buserFour] 100
        "sid2" 9 rRefreshTok).fst = none
    ∧ errStatus (Backend.refresh_access_token
        (Backend.refresh_access_token [rSession] [buserFour] 100 "sid2" 9
          rRefreshTok).snd [buserFour] 200 "sid2" 9 rRefreshTok).fst
      = some 401 :=
  C5_refresh_token_single_use [rSession] 100 200 rRefreshTok rSession
    [rSession] [buserFour] "sid2" 9 rSession buserFour (by decide) (by decide)
    (by decide) (by decide) (by decide) (by decide) (by decide) (by decide)
    (by decide)

/-- Helper: revoking all of a user's sessions leaves every session of
that user with a non-null `revoked_at`. -/
theorem revoke_all_revokes (sessions : List SessionRow) (now : Time)
    (uid : Nat) :
    ∀ s ∈ Root.revoke_all_user_sessions sessions now uid none,
      s.user_id = uid → s.revoked_at.isSome = true := by
  intro s hs hsu
  unfold Root.revoke_all_user_sessions at hs
  rcases List.mem_map.mp hs with ⟨x, hxmem, hfx⟩
  by_cases hc : (x.user_id == uid && x.revoked_at.isNone
      && (match (none : Option Token) with
          | some t => x.token != t
          | none => true)) = true
  · rw [if_pos hc] at hfx
    rw [← hfx]
    rfl
  · rw [if_neg hc] at hfx
    rw [← hfx] at hsu ⊢
    cases hrev : x.revoked_at with
    | some t0 => rfl
    | none =>
      exfalso
      apply hc
      rw [hsu, hrev]
      simp

/-- Helper: after revoking all of a user's sessions, no token that was
held only by that user's sessions resolves to an unrevoked session. -/
theorem revoke_all_blocks_token (sessions : List SessionRow) (now : Time)
    (uid : Nat) (t : Token)
    (ht : ∀ x ∈ sessions, x.token = t → x.user_id = uid) :
    (Root.revoke_all_user_sessions sessions now uid none).find?
      (fun s => s.token == t && s.revoked_at.isNone) = none := by
  rw [List.find?_eq_none]
  intro x' hx' hpred
  simp only [Bool.and_eq_true] at hpred
  obtain ⟨hp1, hp2⟩ := hpred
  have hp1' : x'.token = t := eq_of_beq hp1
  unfold Root.revoke_all_user_sessions at hx'
  rcases List.mem_map.mp hx' with ⟨x, hxmem, hfx⟩
  by_cases hc : (x.user_id == uid && x.revoked_at.isNone
      && (match (none : Option Token) with
          | some tk => x.token != tk
          | none => true)) = true
  · rw [if_pos hc] at hfx
    rw [← hfx] at hp2
    exact Bool.noConfusion hp2
  · rw [if_neg hc] at hfx
    rw [← hfx] at hp1' hp2
    apply hc
    rw [ht x hxmem hp1', hp2]
    simp

/-- C6: a successful password-reset confirmation with a valid, unused,
unexpired token updates the account's password hash, marks the reset
token used, and sets `revoked_at` on every session of that account, so
that an access token issued before the change no longer resolves to an
authenticated caller (every code path of `get_current_user` on the new
state returns an error for such a token). -/
theorem C6_password_reset_revokes_sessions (st : Root.St) (now : Time)
    (tok np : String) (u : Root.User) (r : PasswordResetRow)
    (hver : Root.verify_password_reset_token st now tok = some u)
    (hstr : (Root.validate_password_strength np).fst = true)
    (hrfind : st.resets.find? (fun x => x.token == tok) = some r) :
    (Root.use_password_reset_token st now tok np).fst = .ok true
    ∧ { u with password_hash := hash_password np }
        ∈ (Root.use_password_reset_token st now tok np).snd.users
    ∧ { r with used_at := some now }
        ∈ (Root.use_password_reset_token st now tok np).snd.resets
    ∧ (∀ s ∈ (Root.use_password_reset_token st now tok np).snd.sessions,
        s.user_id = u.id → s.revoked_at.isSome = true)
    ∧ (∀ (now2 : Time) (t : Token),
        (∀ x ∈ st.sessions, x.token = t → x.user_id = u.id) →
        (errStatus (Root.get_current_user
            (Root.use_password_reset_token st now tok np).snd now2
            t).fst).isSome = true) := by
  have hu_mem : u ∈ st.users := by
    unfold Root.verify_password_reset_token at hver
    cases hres : st.resets.find? (fun x =>
        x.token == tok && x.used_at.isNone && decide (now < x.expires_at)) with
    | none =>
      rw [hres] at hver
      exact Option.noConfusion hver
    | some reset =>
      rw [hres] at hver
      dsimp only at hver
      exact List.mem_of_find?_eq_some hver
  have hr_mem : r ∈ st.resets := List.mem_of_find?_eq_some hrfind
  have hcall : Root.use_password_reset_token st now tok np
      = (.ok true,
         { st with
             users := Root.updateUser st.users
               { u with password_hash := hash_password np },
             resets := updateReset st.resets { r with used_at := some now },
             sessions := Root.revoke_all_user_sessions st.sessions now u.id
               none }) := by
    unfold Root.use_password_reset_token
    rw [hver]
    dsimp only
    rw [if_neg (by simp [hstr])]
    rw [hrfind]
  refine ⟨by rw [hcall], ?_, ?_, ?_, ?_⟩
  · rw [hcall]
    dsimp only
    unfold Root.updateUser
    exact List.mem_map.mpr ⟨u, hu_mem, by simp⟩
  · rw [hcall]
    dsimp only
    unfold updateReset
    exact List.mem_map.mpr ⟨r, hr_mem, by simp⟩
  · rw [hcall]
    dsimp only
    exact revoke_all_revokes st.sessions now u.id
  · intro now2 t ht
    rw [hcall]
    unfold Root.get_current_user
    cases hd : Root.decode_token t .access now2 with
    | error e => rfl
    | ok p =>
      dsimp only
      rw [revoke_all_blocks_token st.sessions now u.id t ht]
      rfl

/-- An unused, unexpired password-reset row for `ruser`. -/
def resetRow : PasswordResetRow :=
  { id := 0, user_id := 1, token := "rst", expires_at := 3600, used_at := none }

/-- `rst` extended with the pending password-reset row. -/
def rstWithReset : Root.St :=
  { rst with resets := [resetRow] }

/-- C6 witness: confirming the reset at t = 100 with the strong password
succeeds, updates the hash, marks the token used, revokes `rSession`,
and the previously valid `rAccessTok` no longer authenticates. -/
theorem C6_password_reset_revokes_sessions_witness :
    (Root.use_password_reset_token rstWithReset 100 "rst" "Abcd1234").fst
      = .ok true
    ∧ { ruser with password_hash := hash_password "Abcd1234" }
        ∈ (Root.use_password_reset_token rstWithReset 100 "rst"
            "Abcd1234").snd.users
    ∧ { resetRow with used_at := some 100 }
        ∈ (Root.use_password_reset_token rstWithReset 100 "rst"
            "Abcd1234").snd.resets
    ∧ ({ rSession with revoked_at := some 100 }).revoked_at.isSome = true
    ∧ (errStatus (Root.get_current_user
        (Root.use_password_reset_token rstWithReset 100 "rst"
          "Abcd1234").snd 100 rAccessTok).fst).isSome = true :=
  have h := C6_password_reset_revokes_sessions rstWithReset 100 "rst"
    "Abcd1234" ruser resetRow (by decide) (by decide) (by decide)
  ⟨h.1, h.2.1, h.2.2.1,
    h.2.2.2.1 { rSession with revoked_at := some 100 } (by decide) (by decide),
    h.2.2.2.2 100 rAccessTok (by decide)⟩

end AutoSpare
